import Mathlib

/-!
Shallow embedding of the storage-abstraction and pagination core of the Tuva EMPI
backend, together with theorems settling the behavioural claims of its design
specification.

Embedded modules:
* `backend/main/util/storage_factory.py` — backend selection and credential
  resolution (`StorageFactory`);
* `backend/main/views/pagination.py` — `PaginationMixin`;
* `backend/main/views/person_records.py` — the storage-URI validators and the
  import-request cross-field validation;
* `backend/main/util/io.py` — `get_configured_backends`.

Python `dict`s with a fixed key set are embedded as structures with `Option`
fields (`none` = key absent); Python exceptions as `Except` (with the
exception class distinguished where more than one can escape); Python
truthiness of an optional string as "present and non-empty".
-/

namespace EMPI

/-- Truthiness of an optional string value, as Python evaluates
`if x:` for `x` drawn from `os.environ.get`/`dict.get`/optional config
fields: `None` and the empty string are falsy. -/
def optTruthy : Option String → Bool
  | none => false
  | some s => decide (s ≠ "")

/-! ### Storage configuration model

`main.config` itself is outside the embedded slice; the shape consumed by
`StorageFactory` is a tagged backend selector (`backend.value : str`) plus
optional nested S3 / Azure settings, each field an optional string. -/

structure S3Settings where
  access_key_id : Option String := none
  secret_access_key : Option String := none
  region : Option String := none
  endpoint_url : Option String := none
  deriving DecidableEq

structure AzureSettings where
  account_name : Option String := none
  account_key : Option String := none
  connection_string : Option String := none
  endpoint_url : Option String := none
  deriving DecidableEq

structure StorageConfig where
  backend : String
  s3 : Option S3Settings := none
  azure_blob : Option AzureSettings := none
  deriving DecidableEq

/-- The process environment, restricted to the variables the credential
resolvers read. `none` = variable unset. -/
structure Environ where
  AWS_ACCESS_KEY_ID : Option String := none
  AWS_SECRET_ACCESS_KEY : Option String := none
  AWS_DEFAULT_REGION : Option String := none
  AWS_ENDPOINT_URL : Option String := none
  AZURE_STORAGE_ACCOUNT_NAME : Option String := none
  AZURE_STORAGE_ACCOUNT_KEY : Option String := none
  AZURE_STORAGE_CONNECTION_STRING : Option String := none
  deriving DecidableEq

/-- `StorageBackend` enum of `storage_factory.py`. -/
inductive StorageBackend where
  | S3
  | AZURE_BLOB
  | LOCAL
  deriving DecidableEq

/-- `StorageFactory.get_configured_backend`. The factory holds
`self.storage_config = get_config().storage` (possibly `None`); the method
raises `ValueError` when it is absent, maps the tag strings `"s3"` and
`"azure_blob"` to the enum, and raises `ValueError` on any other tag. -/
def get_configured_backend (storage_config : Option StorageConfig) :
    Except String StorageBackend :=
  match storage_config with
  | none => Except.error "Storage configuration is required"
  | some c =>
    if c.backend = "s3" then Except.ok StorageBackend.S3
    else if c.backend = "azure_blob" then Except.ok StorageBackend.AZURE_BLOB
    else Except.error ("Unsupported storage backend: " ++ c.backend)

/-- `StorageFactory.get_backend_for_uri`: the body ignores the URI and
returns `self.get_configured_backend()`. -/
def get_backend_for_uri (storage_config : Option StorageConfig) (uri : String) :
    Except String StorageBackend :=
  get_configured_backend storage_config

/-- Resolved S3 credential mapping (`configure_s3_backend` result dict). -/
structure S3FsspecConfig where
  key : Option String := none
  secret : Option String := none
  region : Option String := none
  endpoint_url : Option String := none
  deriving DecidableEq

/-- Resolved Azure credential mapping (`configure_azure_backend` result dict). -/
structure AzureFsspecConfig where
  account_name : Option String := none
  account_key : Option String := none
  connection_string : Option String := none
  endpoint_url : Option String := none
  deriving DecidableEq

/-- `StorageFactory.configure_s3_backend`: starts from an empty dict, first
inserts each truthy environment variable, then — under the comment
"Override with config file settings if available" — re-inserts each truthy
config-file setting on top. -/
def configure_s3_backend (env : Environ) (storage_config : Option StorageConfig) :
    S3FsspecConfig :=
  let config : S3FsspecConfig := {}
  let config := if optTruthy env.AWS_ACCESS_KEY_ID then
    { config with key := env.AWS_ACCESS_KEY_ID } else config
  let config := if optTruthy env.AWS_SECRET_ACCESS_KEY then
    { config with secret := env.AWS_SECRET_ACCESS_KEY } else config
  let config := if optTruthy env.AWS_DEFAULT_REGION then
    { config with region := env.AWS_DEFAULT_REGION } else config
  let config := if optTruthy env.AWS_ENDPOINT_URL then
    { config with endpoint_url := env.AWS_ENDPOINT_URL } else config
  match storage_config with
  | some sc =>
    match sc.s3 with
    | some s3_config =>
      let config := if optTruthy s3_config.access_key_id then
        { config with key := s3_config.access_key_id } else config
      let config := if optTruthy s3_config.secret_access_key then
        { config with secret := s3_config.secret_access_key } else config
      let config := if optTruthy s3_config.region then
        { config with region := s3_config.region } else config
      let config := if optTruthy s3_config.endpoint_url then
        { config with endpoint_url := s3_config.endpoint_url } else config
      config
    | none => config
  | none => config

/-- `StorageFactory.configure_azure_backend`: same two phases, environment
first, then config-file settings inserted on top. -/
def configure_azure_backend (env : Environ) (storage_config : Option StorageConfig) :
    AzureFsspecConfig :=
  let config : AzureFsspecConfig := {}
  let config := if optTruthy env.AZURE_STORAGE_ACCOUNT_NAME then
    { config with account_name := env.AZURE_STORAGE_ACCOUNT_NAME } else config
  let config := if optTruthy env.AZURE_STORAGE_ACCOUNT_KEY then
    { config with account_key := env.AZURE_STORAGE_ACCOUNT_KEY } else config
  let config := if optTruthy env.AZURE_STORAGE_CONNECTION_STRING then
    { config with connection_string := env.AZURE_STORAGE_CONNECTION_STRING } else config
  match storage_config with
  | some sc =>
    match sc.azure_blob with
    | some azure_config =>
      let config := if optTruthy azure_config.account_name then
        { config with account_name := azure_config.account_name } else config
      let config := if optTruthy azure_config.account_key then
        { config with account_key := azure_config.account_key } else config
      let config := if optTruthy azure_config.connection_string then
        { config with connection_string := azure_config.connection_string } else config
      let config := if optTruthy azure_config.endpoint_url then
        { config with endpoint_url := azure_config.endpoint_url } else config
      config
    | none => config
  | none => config

/-- `main.util.io.get_configured_backends`: the body is the constant
`return ["s3", "azure_blob"]`. The storage configuration the process holds is
passed explicitly to express that the result does not depend on it. -/
def get_configured_backends (_storage_config : Option StorageConfig) : List String :=
  ["s3", "azure_blob"]

/-! ### Pagination (`PaginationMixin`) -/

def DEFAULT_PAGE_SIZE : Int := 50

def MAX_PAGE_SIZE : Int := 1000

/-- Request data consumed by `get_pagination_params`; `none` = key absent
from the request mapping. -/
structure PageRequestData where
  page : Option Int := none
  page_size : Option Int := none

/-- `PaginationMixin.get_pagination_params`:
`page = data.get("page", 1)`;
`page_size = min(data.get("page_size", DEFAULT_PAGE_SIZE), MAX_PAGE_SIZE)`. -/
def get_pagination_params (data : PageRequestData) : Int × Int :=
  (data.page.getD 1, min (data.page_size.getD DEFAULT_PAGE_SIZE) MAX_PAGE_SIZE)

/-- `PaginationMixin.get_skip_take`: `skip = (page - 1) * page_size`,
`take = page_size + 1` on the normalized parameters. -/
def get_skip_take (data : PageRequestData) : Int × Int :=
  let ps := get_pagination_params data
  ((ps.1 - 1) * ps.2, ps.2 + 1)

/-- The `pagination` sub-dict returned by `paginate_list`. -/
structure PaginationMeta where
  page : Int
  page_size : Nat
  has_next : Bool
  has_previous : Bool
  next_page : Option Int
  previous_page : Option Int
  deriving DecidableEq

/-- The full `paginate_list` result. -/
structure PaginatedList (α : Type) where
  items : List α
  pagination : PaginationMeta

/-- `PaginationMixin.paginate_list`. `items[0:page_size]` is `List.take`
(page sizes are naturals here, as delivered by the API layer). -/
def paginate_list {α : Type} (items : List α) (page : Int) (page_size : Nat) :
    PaginatedList α :=
  let has_next : Bool := decide (items.length > page_size)
  let has_previous : Bool := decide (page > 1)
  { items := items.take page_size,
    pagination :=
      { page := page,
        page_size := page_size,
        has_next := has_next,
        has_previous := has_previous,
        next_page := if has_next then some (page + 1) else none,
        previous_page := if has_previous then some (page - 1) else none } }

/-! ### String primitives used by the validators

`str.startswith`, the `in` substring test, `str.lstrip("/")` and the regex
`[a-z0-9.-]+` are modelled directly on character lists. -/

/-- `startsSeg needle hay`: `hay` begins with `needle`. -/
def startsSeg : List Char → List Char → Bool
  | [], _ => true
  | _ :: _, [] => false
  | c :: cs, d :: ds => decide (c = d) && startsSeg cs ds

/-- `hasSeg needle hay`: Python `needle in hay` (contiguous substring). -/
def hasSeg (needle : List Char) : List Char → Bool
  | [] => needle.isEmpty
  | d :: ds => startsSeg needle (d :: ds) || hasSeg needle ds

/-- Python `s.startswith(p)`. -/
def py_startswith (s p : String) : Bool :=
  startsSeg p.data s.data

/-- Python `sub in s`. -/
def py_contains (s sub : String) : Bool :=
  hasSeg sub.data s.data

/-! ### `urllib.parse.urlparse` model

`urlparse(value, allow_fragments=False)`, following CPython's `urlsplit` /
`urlparse` (3.11 stdlib source) step by step:

1. `url.lstrip(_WHATWG_C0_CONTROL_OR_SPACE)` — leading code points `≤ U+0020`
   are dropped (left side only);
2. `url.replace(b, "")` for each of tab, CR, LF — removed everywhere;
3. optional scheme: a leading ASCII letter followed by letters, digits, `+`,
   `-`, `.` up to the first `:`, lower-cased;
4. netloc after `//`, running to the first `/`, `?` or `#`; an unbalanced
   square bracket in the netloc raises `ValueError("Invalid IPv6 URL")`;
5. no fragment split (`allow_fragments=False`); query after the first `?`;
6. params are split off the path only when the scheme is in `uses_params`
   (which contains neither `s3` nor `abfs` nor `azure`).

The parse is embedded as a total component extraction `urlparseRaw` plus the
unbalanced-bracket error condition `urlNetlocBad`; `urlparse` combines them
into `Except`. Two further `ValueError` sources of CPython — the bracketed
host must parse as an IPv6/IPv4-mapped address (3.11+,
`_check_bracketed_host`), and a non-ASCII netloc must survive the NFKC check
(`_checknetloc`) — require IP-address and Unicode-normalization semantics and
are not modelled; the validator theorems below therefore restrict themselves
to inputs whose parsed netloc is ASCII and bracket-free, where no CPython
version raises either. -/

/-- WHATWG C0-control-or-space class: code points `U+0000`–`U+0020`. -/
def isC0OrSpace (c : Char) : Bool :=
  decide (c.toNat ≤ 32)

/-- `_UNSAFE_URL_BYTES_TO_REMOVE`: tab, CR, LF. -/
def isUnsafeUrlChar (c : Char) : Bool :=
  decide (c = Char.ofNat 9) || decide (c = Char.ofNat 13) || decide (c = Char.ofNat 10)

/-- Remove tab/CR/LF everywhere (the `url.replace(b, "")` loop). -/
def removeUnsafe (l : List Char) : List Char :=
  l.filter fun c => !isUnsafeUrlChar c

/-- Steps 1–2 of `urlsplit`: left-strip C0 controls and spaces, then remove
the unsafe bytes. -/
def normalizeUrl (l : List Char) : List Char :=
  removeUnsafe (l.dropWhile isC0OrSpace)

/-- `urllib.parse.uses_params` (the schemes whose path gets a params
split). -/
def uses_params : List String :=
  ["", "ftp", "hdl", "prospero", "http", "imap", "https", "shttp", "rtsp",
   "rtsps", "rtspu", "sip", "sips", "mms", "sftp", "tel"]

def isSchemeChar (c : Char) : Bool :=
  c.isAlpha || c.isDigit || decide (c = '+') || decide (c = '-') || decide (c = '.')

/-- Split a list at the first occurrence of `c` (the occurrence removed);
`none` when `c` is absent. -/
def splitAtChar (c : Char) : List Char → Option (List Char × List Char)
  | [] => none
  | d :: ds =>
    if d = c then some ([], ds)
    else (splitAtChar c ds).map fun p => (d :: p.1, p.2)

/-- Scheme extraction of `urlsplit`: returns (lower-cased scheme, remainder).
When the text before the first `:` is not a valid scheme, the scheme is empty
and the input is left untouched. -/
def splitScheme (url : List Char) : List Char × List Char :=
  match splitAtChar ':' url with
  | none => ([], url)
  | some (before, after) =>
    match before with
    | [] => ([], url)
    | c :: cs =>
      if c.isAlpha && (c :: cs).all isSchemeChar then
        ((c :: cs).map Char.toLower, after)
      else
        ([], url)

/-- Netloc extraction: the input follows `//`; the netloc runs to the first
`/`, `?` or `#`, which stays with the remainder. -/
def splitNetloc : List Char → List Char × List Char
  | [] => ([], [])
  | c :: cs =>
    if c = '/' || c = '?' || c = '#' then ([], c :: cs)
    else
      let p := splitNetloc cs
      (c :: p.1, p.2)

/-- `_splitparams`: split the params off the path at the first `;` that
follows the last `/` (or the first `;` at all when the path has no `/`);
no split when that `;` does not exist. -/
def splitParamsChars (p : List Char) : List Char × List Char :=
  if p.contains ';' then
    if p.contains '/' then
      match splitAtChar '/' p.reverse with
      | some (lastSegRev, restRev) =>
        match splitAtChar ';' lastSegRev.reverse with
        | none => (p, [])
        | some (segBefore, after) => (restRev.reverse ++ '/' :: segBefore, after)
      | none => (p, [])
    else
      match splitAtChar ';' p with
      | none => (p, [])
      | some (b, a) => (b, a)
  else (p, [])

structure UrlParts where
  scheme : String
  netloc : String
  path : String
  params : String
  query : String
  deriving DecidableEq

/-- Total component extraction of `urlsplit`+`urlparse` on an already
normalized character list. -/
def urlparseCore (url : List Char) : UrlParts :=
  let s := splitScheme url
  let nl := match s.2 with
    | '/' :: '/' :: tail => splitNetloc tail
    | r => ([], r)
  let pq := match splitAtChar '?' nl.2 with
    | none => (nl.2, ([] : List Char))
    | some pr => pr
  let scheme := String.mk s.1
  let pp := if uses_params.contains scheme && pq.1.contains ';' then
      splitParamsChars pq.1
    else (pq.1, ([] : List Char))
  { scheme := scheme,
    netloc := String.mk nl.1,
    path := String.mk pp.1,
    params := String.mk pp.2,
    query := String.mk pq.2 }

/-- Component extraction of `urlparse(value, allow_fragments=False)` on the
raw input. -/
def urlparseRaw (url0 : List Char) : UrlParts :=
  urlparseCore (normalizeUrl url0)

/-- The netloc condition under which `urlsplit` raises
`ValueError("Invalid IPv6 URL")`: a `[` without `]`, or a `]` without `[`.
(`_splitnetloc` runs before the query split, so checking the extracted netloc
afterwards is equivalent.) -/
def urlNetlocBad (url0 : List Char) : Bool :=
  let nl := (urlparseRaw url0).netloc.data
  (nl.contains '[' && !nl.contains ']') || (nl.contains ']' && !nl.contains '[')

/-- `urlparse(value, allow_fragments=False)`: the parsed components, or the
`ValueError` message raised while parsing. -/
def urlparse (value : String) : Except String UrlParts :=
  if urlNetlocBad value.data then Except.error "Invalid IPv6 URL"
  else Except.ok (urlparseRaw value.data)

/-! ### Storage-URI validators (`StorageURIValidatorMixin`) -/

/-- `re.fullmatch(r"[a-z0-9.-]+", s)` is a match: non-empty and every
character a lowercase letter, digit, dot or hyphen. -/
def bucketRegexOk (s : String) : Bool :=
  !s.data.isEmpty && s.data.all fun c =>
    (decide ('a' ≤ c) && decide (c ≤ 'z')) || c.isDigit ||
      decide (c = '.') || decide (c = '-')

/-- The two exception kinds a validator call can surface: the DRF
`serializers.ValidationError` it raises itself, and a `ValueError` escaping
from `urlparse` (the validators do not catch it). -/
inductive PyErr where
  | ValidationError (msg : String)
  | ValueError (msg : String)
  deriving DecidableEq

/-- `StorageURIValidatorMixin.validate_s3_uri`. The `urlparse` call is the
first statement, so a parse `ValueError` propagates before any condition is
checked. -/
def validate_s3_uri (value : String) : Except PyErr String :=
  match urlparse value with
  | Except.error e => Except.error (PyErr.ValueError e)
  | Except.ok p =>
    let s3_bucket := p.netloc
    let s3_key := p.path.data.dropWhile fun c => c = '/'
    if py_startswith value "s3://" && (p.scheme == "s3") &&
        bucketRegexOk s3_bucket && !s3_key.isEmpty then
      Except.ok value
    else
      Except.error (PyErr.ValidationError "Invalid S3 URI")

/-- `StorageURIValidatorMixin.validate_azure_blob_uri`. The `urlparse` call
is the first statement, so a parse `ValueError` propagates before any
condition is checked. -/
def validate_azure_blob_uri (value : String) : Except PyErr String :=
  match urlparse value with
  | Except.error e => Except.error (PyErr.ValueError e)
  | Except.ok p =>
    if py_startswith value "abfs://" then
      if (p.scheme == "abfs") && py_contains p.netloc "@" &&
          py_contains p.netloc ".dfs.core.windows.net" && !p.path.data.isEmpty then
        Except.ok value
      else
        Except.error (PyErr.ValidationError "Invalid Azure Blob Storage URI")
    else if py_startswith value "azure://" then
      if (p.scheme == "azure") && py_contains p.netloc "@" &&
          py_contains p.netloc ".blob.core.windows.net" && !p.path.data.isEmpty then
        Except.ok value
      else
        Except.error (PyErr.ValidationError "Invalid Azure Blob Storage URI")
    else
      Except.error (PyErr.ValidationError "Invalid Azure Blob Storage URI")

/-! ### Import-request validation (`ImportPersonRecordsRequest`) -/

/-- Request data seen by `ImportPersonRecordsRequest.validate`; the uploaded
file is represented by its truthiness witness (its name). -/
structure ImportRequestData where
  s3_uri : Option String := none
  azure_blob_uri : Option String := none
  storage_uri : Option String := none
  file : Option String := none
  deriving DecidableEq

/-- `len(provided_options)` in `ImportPersonRecordsRequest.validate`: the
number of truthy entries among the four storage options. -/
def provided_options (d : ImportRequestData) : Nat :=
  (([d.s3_uri, d.azure_blob_uri, d.storage_uri, d.file]).filter optTruthy).length

def mustProvideMsg : String :=
  "Must provide one of: 's3_uri', 'azure_blob_uri', 'storage_uri', or 'file'."

def onlyOneMsg : String :=
  "Provide only one storage option, not multiple."

/-- `ImportPersonRecordsRequest.validate`. -/
def importRecordsValidate (d : ImportRequestData) : Except String ImportRequestData :=
  if provided_options d = 0 then Except.error mustProvideMsg
  else if provided_options d > 1 then Except.error onlyOneMsg
  else Except.ok d

/-- `ImportPersonRecordsRequest.validate_s3_uri` is the override
`return self.validate_s3_uri(value)`.  Attribute lookup on `self` resolves to
this same override (the most-derived method), not to
`StorageURIValidatorMixin.validate_s3_uri`, so every call re-enters itself.
The recursion is embedded with an explicit stack budget: `none` means the
budget was exhausted without the call ever producing an outcome. -/
def importRequest_validate_s3_uri : Nat → String → Option (Except String String)
  | 0, _ => none
  | fuel + 1, value => importRequest_validate_s3_uri fuel value

/-- `ImportPersonRecordsRequest.validate_azure_blob_uri`, the same
self-referential override. -/
def importRequest_validate_azure_blob_uri : Nat → String → Option (Except String String)
  | 0, _ => none
  | fuel + 1, value => importRequest_validate_azure_blob_uri fuel value

/-- `ImportPersonRecordsRequest.validate_storage_uri`, the same
self-referential override. -/
def importRequest_validate_storage_uri : Nat → String → Option (Except String String)
  | 0, _ => none
  | fuel + 1, value => importRequest_validate_storage_uri fuel value

/-! ### Spec-side reference predicates

For the two URI-validator claims, the acceptance condition is restated from
the specification's wording, to be compared with the source-derived
functions above. -/

/-- The specification's acceptance condition for an S3 URI: starts with
`s3://`, parsed scheme is `s3`, the authority matches `[a-z0-9.-]+` exactly,
and the path with its leading slashes stripped is non-empty. -/
def s3UriSpecOk (value : String) : Bool :=
  py_startswith value "s3://" && ((urlparseRaw value.data).scheme == "s3") &&
    bucketRegexOk (urlparseRaw value.data).netloc &&
    !((urlparseRaw value.data).path.data.dropWhile fun c => c = '/').isEmpty

/-- The specification's acceptance condition for an Azure Blob URI: an
`abfs://` URI whose authority contains `@` and `.dfs.core.windows.net` with a
non-empty path, or an `azure://` URI whose authority contains `@` and
`.blob.core.windows.net` with a non-empty path. -/
def azureUriSpecOk (value : String) : Bool :=
  (py_startswith value "abfs://" && py_contains (urlparseRaw value.data).netloc "@" &&
      py_contains (urlparseRaw value.data).netloc ".dfs.core.windows.net" &&
      !(urlparseRaw value.data).path.data.isEmpty) ||
  (py_startswith value "azure://" && py_contains (urlparseRaw value.data).netloc "@" &&
      py_contains (urlparseRaw value.data).netloc ".blob.core.windows.net" &&
      !(urlparseRaw value.data).path.data.isEmpty)

/-- The domain on which `urlparse` provably raises nothing, on every CPython
version: the parsed authority is pure ASCII and contains no square bracket
(so neither the IPv6-bracket checks nor the non-ASCII NFKC netloc check can
fire). -/
def parsedNetlocPlain (value : String) : Bool :=
  ((urlparseRaw value.data).netloc.data.all fun c => decide (c.toNat ≤ 127)) &&
    !(urlparseRaw value.data).netloc.data.contains '[' &&
    !(urlparseRaw value.data).netloc.data.contains ']'

/-! ### Helper lemmas -/

lemma startsSeg_exists (p l : List Char) :
    startsSeg p l = true ↔ ∃ t, l = p ++ t := by
  induction p generalizing l with
  | nil => simp [startsSeg]
  | cons c cs ih =>
    cases l with
    | nil => simp [startsSeg]
    | cons d ds =>
      simp only [startsSeg, Bool.and_eq_true, decide_eq_true_eq, ih,
        List.cons_append, List.cons.injEq]
      constructor
      · rintro ⟨hcd, t, ht⟩
        exact ⟨t, hcd.symm, ht⟩
      · rintro ⟨t, hdc, ht⟩
        exact ⟨hdc.symm, t, ht⟩

/-- Normalization leaves a prefix untouched when its head is not strippable
and none of its characters is an unsafe byte. -/
lemma normalizeUrl_cons_append (c : Char) (cs t : List Char)
    (hc : isC0OrSpace c = false)
    (h3 : (c :: cs).filter (fun x => !isUnsafeUrlChar x) = c :: cs) :
    normalizeUrl ((c :: cs) ++ t) = (c :: cs) ++ removeUnsafe t := by
  unfold normalizeUrl removeUnsafe
  rw [List.cons_append, List.dropWhile_cons, hc]
  simp only [Bool.false_eq_true, if_false]
  rw [← List.cons_append, List.filter_append, h3]

/-- An `abfs://`-prefixed string always parses with scheme `abfs` and is
never `azure://`-prefixed. -/
lemma urlparseRaw_scheme_of_abfs (value : String)
    (h : py_startswith value "abfs://" = true) :
    (urlparseRaw value.data).scheme = "abfs" ∧
      py_startswith value "azure://" = false := by
  rw [py_startswith, show "abfs://".data = ['a', 'b', 'f', 's', ':', '/', '/'] from rfl] at h
  obtain ⟨t, ht⟩ := (startsSeg_exists _ _).mp h
  refine ⟨?_, ?_⟩
  · show (urlparseCore (normalizeUrl value.data)).scheme = "abfs"
    rw [ht,
      normalizeUrl_cons_append 'a' ['b', 'f', 's', ':', '/', '/'] t (by decide) (by decide)]
    rfl
  · rw [py_startswith,
      show "azure://".data = ['a', 'z', 'u', 'r', 'e', ':', '/', '/'] from rfl, ht]
    rfl

/-- An `azure://`-prefixed string always parses with scheme `azure`. -/
lemma urlparseRaw_scheme_of_azure (value : String)
    (h : py_startswith value "azure://" = true) :
    (urlparseRaw value.data).scheme = "azure" := by
  rw [py_startswith,
    show "azure://".data = ['a', 'z', 'u', 'r', 'e', ':', '/', '/'] from rfl] at h
  obtain ⟨t, ht⟩ := (startsSeg_exists _ _).mp h
  show (urlparseCore (normalizeUrl value.data)).scheme = "azure"
  rw [ht,
    normalizeUrl_cons_append 'a' ['z', 'u', 'r', 'e', ':', '/', '/'] t (by decide) (by decide)]
  rfl

/-- On the bracket-free domain the unbalanced-bracket error cannot fire. -/
lemma urlNetlocBad_of_plain (value : String)
    (h : parsedNetlocPlain value = true) :
    urlNetlocBad value.data = false := by
  unfold parsedNetlocPlain at h
  simp only [Bool.and_eq_true, Bool.not_eq_true'] at h
  obtain ⟨⟨-, h1⟩, h2⟩ := h
  show (((urlparseRaw value.data).netloc.data.contains '[' &&
      !(urlparseRaw value.data).netloc.data.contains ']') ||
    ((urlparseRaw value.data).netloc.data.contains ']' &&
      !(urlparseRaw value.data).netloc.data.contains '[')) = false
  rw [h1, h2]
  rfl

/-- On the bracket-free domain `urlparse` returns the raw components. -/
lemma urlparse_ok_of_plain (value : String)
    (h : parsedNetlocPlain value = true) :
    urlparse value = Except.ok (urlparseRaw value.data) := by
  unfold urlparse
  rw [urlNetlocBad_of_plain value h]
  rfl

/-! ### Claim theorems -/

/-- Claim C2: for every URI string, of any scheme, `get_backend_for_uri`
returns exactly what `get_configured_backend` returns — the same backend on
success and the same configuration error on failure; the URI never
influences backend selection. -/
theorem C2_backend_for_uri_ignores_uri :
    ∀ (storage_config : Option StorageConfig) (uri : String),
      get_backend_for_uri storage_config uri = get_configured_backend storage_config :=
  fun _ _ => rfl

/-- Claim C3 (refuting theorem): the field validators of
`ImportPersonRecordsRequest` never produce an outcome — neither a validated
string nor a validation failure — whatever stack budget they are run with,
because each override calls itself. -/
theorem C3_import_request_field_validators_diverge :
    ∀ (fuel : Nat) (value : String),
      importRequest_validate_s3_uri fuel value = none ∧
      importRequest_validate_azure_blob_uri fuel value = none ∧
      importRequest_validate_storage_uri fuel value = none := by
  intro fuel
  induction fuel with
  | zero => intro value; exact ⟨rfl, rfl, rfl⟩
  | succ n ih =>
    intro value
    simpa [importRequest_validate_s3_uri, importRequest_validate_azure_blob_uri,
      importRequest_validate_storage_uri] using ih value

/-- Environment for the C1 evaluation: the S3 access key and the Azure
account name are set in the process environment. -/
def c1Environ : Environ :=
  { AWS_ACCESS_KEY_ID := some "env-key",
    AZURE_STORAGE_ACCOUNT_NAME := some "env-account" }

/-- Storage configuration for the C1 evaluation: the same two settings also
carry (different) config-file values. -/
def c1StorageConfig : Option StorageConfig :=
  some { backend := "s3",
         s3 := some { access_key_id := some "file-key" },
         azure_blob := some { account_name := some "file-account" } }

/-- Claim C1 (evaluation at the failing input): with
`AWS_ACCESS_KEY_ID=env-key` set in the environment and `access_key_id:
file-key` present in the config file, the resolved S3 mapping carries the
config-file value, not the environment value; likewise for the Azure account
name. The config-file layer is applied after — hence on top of — the
environment layer. -/
theorem C1_config_file_overrides_environment :
    c1Environ.AWS_ACCESS_KEY_ID = some "env-key"
    ∧ (configure_s3_backend c1Environ c1StorageConfig).key = some "file-key"
    ∧ ¬((configure_s3_backend c1Environ c1StorageConfig).key
        = c1Environ.AWS_ACCESS_KEY_ID)
    ∧ c1Environ.AZURE_STORAGE_ACCOUNT_NAME = some "env-account"
    ∧ (configure_azure_backend c1Environ c1StorageConfig).account_name
        = some "file-account"
    ∧ ¬((configure_azure_backend c1Environ c1StorageConfig).account_name
        = c1Environ.AZURE_STORAGE_ACCOUNT_NAME) := by
  decide

/-- Storage configuration whose active-backend tag is `local`. -/
def localTagConfig : StorageConfig := { backend := "local" }

/-- Claim C4 (counterexample): a configuration whose tag is `local` does not
yield `LOCAL` — `get_configured_backend` raises the unsupported-backend
configuration error on it. -/
theorem C4_local_tag_rejected :
    get_configured_backend (some localTagConfig) =
      Except.error "Unsupported storage backend: local"
    ∧ ¬(get_configured_backend (some localTagConfig) =
        Except.ok StorageBackend.LOCAL) := by
  refine ⟨rfl, ?_⟩
  intro h
  exact Except.noConfusion h

/-- Claim C4 (amended): `get_configured_backend` returns `S3` exactly for the
tag `s3` and `AZURE_BLOB` exactly for the tag `azure_blob`; it never returns
`LOCAL`; and it fails with a configuration error exactly when the storage
configuration is absent or its tag is neither `s3` nor `azure_blob` (which
includes `local`). -/
theorem C4_configured_backend_characterization :
    ∀ cfg : Option StorageConfig,
      (get_configured_backend cfg = Except.ok StorageBackend.S3 ↔
        ∃ c, cfg = some c ∧ c.backend = "s3")
      ∧ (get_configured_backend cfg = Except.ok StorageBackend.AZURE_BLOB ↔
        ∃ c, cfg = some c ∧ c.backend = "azure_blob")
      ∧ (get_configured_backend cfg = Except.ok StorageBackend.LOCAL ↔ False)
      ∧ ((∃ msg, get_configured_backend cfg = Except.error msg) ↔
        (cfg = none ∨ ∃ c, cfg = some c ∧ c.backend ≠ "s3" ∧ c.backend ≠ "azure_blob")) := by
  intro cfg
  cases cfg with
  | none => simp [get_configured_backend]
  | some c =>
    by_cases hs : c.backend = "s3"
    · simp [get_configured_backend, hs]
    · by_cases ha : c.backend = "azure_blob"
      · simp [get_configured_backend, hs, ha]
      · simp [get_configured_backend, hs, ha]

/-- Claim C5: `paginate_list` returns the first `page_size` items (dropping
the lookahead item when present), `has_next` true iff more than `page_size`
items were supplied, `has_previous` true iff `page > 1`, and
`next_page`/`previous_page` equal to `page ± 1` exactly when the
corresponding flag holds and absent otherwise. -/
theorem C5_paginate_list_spec :
    ∀ (α : Type) (items : List α) (page : Int) (page_size : Nat),
      (paginate_list items page page_size).items = items.take page_size
      ∧ ((paginate_list items page page_size).pagination.has_next = true ↔
          items.length > page_size)
      ∧ ((paginate_list items page page_size).pagination.has_previous = true ↔
          page > 1)
      ∧ (paginate_list items page page_size).pagination.next_page =
          (if items.length > page_size then some (page + 1) else none)
      ∧ (paginate_list items page page_size).pagination.previous_page =
          (if page > 1 then some (page - 1) else none) := by
  intro α items page page_size
  refine ⟨rfl, by simp [paginate_list], by simp [paginate_list], ?_, ?_⟩
  · by_cases h : items.length > page_size <;> simp [paginate_list, h]
  · by_cases h : page > 1 <;> simp [paginate_list, h]

/-- Claim C6: `get_pagination_params` yields the supplied page (default 1)
and the supplied page size capped at 1000 by `min` (default 50, never
rejected), and `get_skip_take` yields `skip = (page - 1) * page_size` and
`take = page_size + 1` on those normalized values. -/
theorem C6_pagination_params_skip_take_spec :
    (∀ data : PageRequestData,
      get_pagination_params data =
        (data.page.getD 1, min (data.page_size.getD 50) 1000)
      ∧ get_skip_take data =
        (((get_pagination_params data).1 - 1) * (get_pagination_params data).2,
          (get_pagination_params data).2 + 1))
    ∧ get_skip_take { page := some 2, page_size := some 10 } = (10, 11)
    ∧ (get_pagination_params { page_size := some 5000 }).2 = 1000 := by
  refine ⟨fun data => ⟨rfl, rfl⟩, by decide, by decide⟩

/-- Claim C7 (counterexample): at `s3://[a/b` the unbalanced bracket in the
authority makes `urlparse` raise `ValueError("Invalid IPv6 URL")`, which
propagates out of `validate_s3_uri`: the validator neither returns the value
nor signals the validation failure "Invalid S3 URI" that the claim requires
for every failing input. -/
theorem C7_bracket_value_error :
    validate_s3_uri "s3://[a/b" = Except.error (PyErr.ValueError "Invalid IPv6 URL")
    ∧ ¬(validate_s3_uri "s3://[a/b" =
        Except.error (PyErr.ValidationError "Invalid S3 URI"))
    ∧ ¬(validate_s3_uri "s3://[a/b" = Except.ok "s3://[a/b") := by
  have h : validate_s3_uri "s3://[a/b" =
      Except.error (PyErr.ValueError "Invalid IPv6 URL") := rfl
  refine ⟨h, ?_, ?_⟩ <;> rw [h] <;> simp

/-- Claim C7 (amended): for every string whose parsed authority is ASCII and
bracket-free — the domain on which `urlparse` cannot raise —
`validate_s3_uri` returns its input unchanged exactly when the
specification's four conditions hold and signals the validation failure
"Invalid S3 URI" otherwise; when the parsed authority carries an unbalanced
square bracket, `urlparse`'s `ValueError` propagates instead. In particular
`s3://bucket` is rejected with "Invalid S3 URI" and
`s3://my-bucket-123/data/records.csv` is accepted. -/
theorem C7_validate_s3_uri_spec :
    (∀ value : String, parsedNetlocPlain value = true →
      validate_s3_uri value =
        if s3UriSpecOk value then Except.ok value
        else Except.error (PyErr.ValidationError "Invalid S3 URI"))
    ∧ validate_s3_uri "s3://bucket" =
        Except.error (PyErr.ValidationError "Invalid S3 URI")
    ∧ validate_s3_uri "s3://my-bucket-123/data/records.csv" =
        Except.ok "s3://my-bucket-123/data/records.csv" := by
  refine ⟨fun value h => ?_, rfl, rfl⟩
  unfold validate_s3_uri
  rw [urlparse_ok_of_plain value h]
  rfl

/-- Closed witness for the C7 dichotomy, discharging its hypothesis at a
concrete accepted URI. -/
theorem C7_validate_s3_uri_spec_witness :
    parsedNetlocPlain "s3://my-bucket-123/data/records.csv" = true
    ∧ validate_s3_uri "s3://my-bucket-123/data/records.csv" =
        if s3UriSpecOk "s3://my-bucket-123/data/records.csv" then
          Except.ok "s3://my-bucket-123/data/records.csv"
        else Except.error (PyErr.ValidationError "Invalid S3 URI") :=
  ⟨rfl, C7_validate_s3_uri_spec.1 "s3://my-bucket-123/data/records.csv" rfl⟩

/-- Claim C8 (counterexample): at `abfs://[c@a.dfs.core.windows.net/p` the
unbalanced bracket in the authority makes `urlparse` raise
`ValueError("Invalid IPv6 URL")`, which propagates out of
`validate_azure_blob_uri` instead of the validation failure "Invalid Azure
Blob Storage URI" the claim requires in every non-accepted case. -/
theorem C8_bracket_value_error :
    validate_azure_blob_uri "abfs://[c@a.dfs.core.windows.net/p" =
      Except.error (PyErr.ValueError "Invalid IPv6 URL")
    ∧ ¬(validate_azure_blob_uri "abfs://[c@a.dfs.core.windows.net/p" =
        Except.error (PyErr.ValidationError "Invalid Azure Blob Storage URI"))
    ∧ ¬(validate_azure_blob_uri "abfs://[c@a.dfs.core.windows.net/p" =
        Except.ok "abfs://[c@a.dfs.core.windows.net/p") := by
  have h : validate_azure_blob_uri "abfs://[c@a.dfs.core.windows.net/p" =
      Except.error (PyErr.ValueError "Invalid IPv6 URL") := rfl
  refine ⟨h, ?_, ?_⟩ <;> rw [h] <;> simp

/-- Claim C8 (amended): for every string whose parsed authority is ASCII and
bracket-free — the domain on which `urlparse` cannot raise —
`validate_azure_blob_uri` returns its input unchanged exactly when the
specification's `abfs://` or `azure://` conditions hold and signals the
validation failure "Invalid Azure Blob Storage URI" otherwise; when the
parsed authority carries an unbalanced square bracket, `urlparse`'s
`ValueError` propagates instead. The specification's three concrete
examples behave as stated. -/
theorem C8_validate_azure_blob_uri_spec :
    (∀ value : String, parsedNetlocPlain value = true →
      validate_azure_blob_uri value =
        if azureUriSpecOk value then Except.ok value
        else Except.error (PyErr.ValidationError "Invalid Azure Blob Storage URI"))
    ∧ validate_azure_blob_uri "abfs://container@account.dfs.core.windows.net/path/file.csv" =
        Except.ok "abfs://container@account.dfs.core.windows.net/path/file.csv"
    ∧ validate_azure_blob_uri "abfs://invalid-uri" =
        Except.error (PyErr.ValidationError "Invalid Azure Blob Storage URI")
    ∧ validate_azure_blob_uri "azure://container@account.blob.core.windows.net" =
        Except.error (PyErr.ValidationError "Invalid Azure Blob Storage URI") := by
  refine ⟨fun value h => ?_, rfl, rfl, rfl⟩
  have hp := urlparse_ok_of_plain value h
  cases h1 : py_startswith value "abfs://" with
  | true =>
    obtain ⟨hs, h2⟩ := urlparseRaw_scheme_of_abfs value h1
    simp [validate_azure_blob_uri, hp, azureUriSpecOk, h1, h2, hs]
  | false =>
    cases h2 : py_startswith value "azure://" with
    | true =>
      have hs := urlparseRaw_scheme_of_azure value h2
      simp [validate_azure_blob_uri, hp, azureUriSpecOk, h1, h2, hs]
    | false =>
      simp [validate_azure_blob_uri, hp, azureUriSpecOk, h1, h2]

/-- Closed witness for the C8 dichotomy, discharging its hypothesis at a
concrete accepted URI. -/
theorem C8_validate_azure_blob_uri_spec_witness :
    parsedNetlocPlain "abfs://container@account.dfs.core.windows.net/path/file.csv" = true
    ∧ validate_azure_blob_uri "abfs://container@account.dfs.core.windows.net/path/file.csv" =
        if azureUriSpecOk "abfs://container@account.dfs.core.windows.net/path/file.csv" then
          Except.ok "abfs://container@account.dfs.core.windows.net/path/file.csv"
        else Except.error (PyErr.ValidationError "Invalid Azure Blob Storage URI") :=
  ⟨rfl, C8_validate_azure_blob_uri_spec.1
    "abfs://container@account.dfs.core.windows.net/path/file.csv" rfl⟩

/-- Claim C9: import-request validation accepts exactly the requests that
supply precisely one truthy storage option; with none it fails with a
message containing "Must provide one of", and with several it fails with a
message containing "Provide only one storage option". -/
theorem C9_import_request_single_storage_option :
    (∀ d : ImportRequestData,
      importRecordsValidate d =
        if provided_options d = 1 then Except.ok d
        else if provided_options d = 0 then Except.error mustProvideMsg
        else Except.error onlyOneMsg)
    ∧ py_contains mustProvideMsg "Must provide one of" = true
    ∧ py_contains onlyOneMsg "Provide only one storage option" = true := by
  refine ⟨fun d => ?_, by decide, by decide⟩
  by_cases h0 : provided_options d = 0
  · simp [importRecordsValidate, h0]
  · by_cases h1 : provided_options d = 1
    · simp [importRecordsValidate, h0, h1]
    · have h2 : provided_options d > 1 := by omega
      simp [importRecordsValidate, h0, h1, h2, Nat.not_eq_zero_of_lt]

/-- Claim C10: `get_configured_backends` returns the constant list
`["s3", "azure_blob"]` for every process state: it never contains
`"local"` and does not depend on the storage configuration. -/
theorem C10_configured_backends_constant :
    ∀ cfg cfg₂ : Option StorageConfig,
      get_configured_backends cfg = ["s3", "azure_blob"]
      ∧ (get_configured_backends cfg).contains "local" = false
      ∧ get_configured_backends cfg = get_configured_backends cfg₂ :=
  fun _ _ => ⟨rfl, rfl, rfl⟩

end EMPI
